import Mathlib

/-!
Shallow embedding of the visibility-sampling and best-time-search logic of
src/main.py (the Astop astronomy planner), together with the catalog tables,
the timeline sampler, the sky-map projection and the dashboard button handler.

The external astropy position provider (get_body / SkyCoord.from_name followed
by the AltAz transform) is modelled as a function parameter that, for a body
name, an instant and a location, returns either a horizontal fix or an error
message.  Python floats are modelled as rationals, and instants as integers
counted in hours: every piece of time arithmetic in the source steps by whole
hours (timedelta(hours=i)), so the integer hour offset is an exact model of
the instants the code can ever construct from a start instant.
-/

namespace Astop

/-- Observer location: latitude and longitude in degrees and elevation in
metres, as built from the city table of src/main.py (lines 296-302). -/
structure Location where
  lat : ℚ
  lon : ℚ
  height : ℚ
  deriving DecidableEq

/-- Horizontal coordinates of one body at one instant: the result of the
astropy resolve-and-transform step (src/main.py lines 56-63). -/
structure HorizontalFix where
  altitude_deg : ℚ
  azimuth_deg : ℚ
  deriving DecidableEq

/-- The external position provider: resolve a body name at an instant for a
location, yielding a horizontal fix or failing with an error message.  This
stands for the astropy calls get_body / SkyCoord.from_name plus the transform
to the AltAz frame, which the repository treats as a black box. -/
abbrev Provider := String → Int → Location → Except String HorizontalFix

/-- The supported celestial bodies (src/main.py line 34). -/
def bodies : List String :=
  ["mercury", "venus", "mars", "jupiter", "saturn", "uranus", "neptune",
   "sirius", "vega"]

/-- The constellation lookup table (src/main.py lines 35-38). -/
def constellations : List (String × String) :=
  [("sirius", "Canis Major"), ("vega", "Lyra")]

/-- One entry of the telescope recommendation table: a magnitude and a
recommendation string (src/main.py lines 41-51). -/
structure TelescopeRec where
  magnitude : ℚ
  recommendation : String
  deriving DecidableEq

/-- The telescope recommendation table (src/main.py lines 41-51). -/
def telescope_recommendations : List (String × TelescopeRec) :=
  [("mercury", { magnitude := 0, recommendation := "Binoculars or 3-inch telescope (bright but small)." }),
   ("venus", { magnitude := -4.6, recommendation := "Naked eye or binoculars (very bright)." }),
   ("mars", { magnitude := -2.0, recommendation := "4-inch telescope for surface details." }),
   ("jupiter", { magnitude := -2.7, recommendation := "4-inch telescope for moons and bands." }),
   ("saturn", { magnitude := 0.7, recommendation := "6-inch telescope for rings." }),
   ("uranus", { magnitude := 5.7, recommendation := "6-inch telescope in dark skies." }),
   ("neptune", { magnitude := 7.8, recommendation := "8-inch telescope in dark skies." }),
   ("sirius", { magnitude := -1.46, recommendation := "Naked eye or binoculars (bright star)." }),
   ("vega", { magnitude := 0.03, recommendation := "Naked eye or binoculars (bright star)." })]

/-- The 25 hourly candidate instants built by find_best_time
(src/main.py line 77): start_time + i hours for i in range(25). -/
def best_time_candidates (start_time : Int) : List Int :=
  (List.range 25).map (fun (i : ℕ) => start_time + (i : Int))

/-- One iteration of the find_best_time loop (src/main.py lines 80-91): a
failing sample is skipped silently, a successful one replaces the running
(best_time, max_altitude) pair only when its altitude is strictly greater
than the running maximum. -/
def bestStep (p : Provider) (body_name : String) (location : Location)
    (acc : Int × ℚ) (t : Int) : Int × ℚ :=
  match p body_name t location with
  | Except.error _ => acc
  | Except.ok fix => if fix.altitude_deg > acc.2 then (t, fix.altitude_deg) else acc

/-- find_best_time (src/main.py lines 76-92): fold the per-sample step over
the 25 hourly candidates, starting from (start_time, -90). -/
def find_best_time (p : Provider) (body_name : String) (start_time : Int)
    (location : Location) : Int × ℚ :=
  (best_time_candidates start_time).foldl (bestStep p body_name location)
    (start_time, -90)

/-- The dictionary returned by check_visibility on success
(src/main.py lines 65-71). -/
structure VisibilityInfo where
  altitude : ℚ
  azimuth : ℚ
  visible : Bool
  best_time : Int
  max_altitude : ℚ
  deriving DecidableEq

/-- check_visibility (src/main.py lines 54-73): resolve the body once at the
query instant; on success package altitude, azimuth, the visibility flag
(altitude strictly above 10 degrees) and the best-time search result; on a
resolution failure return the formatted error message.  find_best_time
swallows its per-sample errors internally and never fails, so the only
failure source of the try block is the initial resolution. -/
def check_visibility (p : Provider) (body_name : String) (observation_time : Int)
    (location : Location) : Except String VisibilityInfo :=
  match p body_name observation_time location with
  | Except.error e =>
      Except.error
        ("Error: Unable to find coordinates for \x27" ++ body_name ++ "\x27 (" ++ e ++ ").")
  | Except.ok fix =>
      let r := find_best_time p body_name observation_time location
      Except.ok
        { altitude := fix.altitude_deg
          azimuth := fix.azimuth_deg
          visible := decide (fix.altitude_deg > 10)
          best_time := r.1
          max_altitude := r.2 }

/-- The altitude of one successful sample at instant t, none when the
provider fails there. -/
def succAlt (p : Provider) (body_name : String) (location : Location)
    (t : Int) : Option ℚ :=
  match p body_name t location with
  | Except.ok fix => some fix.altitude_deg
  | Except.error _ => none

/-- Python int() truncation toward zero, applied to a rational: floor for
nonnegative arguments, ceiling for negative ones. -/
def pyTrunc (q : ℚ) : Int := if 0 ≤ q then q.floor else q.ceil

/-- The altitude recorded for one timeline sample (src/main.py lines 99-108):
the resolved altitude, or exactly 0 when the sample fails. -/
def timeline_altitude (p : Provider) (body_name : String) (location : Location)
    (t : Int) : ℚ :=
  match p body_name t location with
  | Except.ok fix => fix.altitude_deg
  | Except.error _ => 0

/-- plot_visibility_timeline (src/main.py lines 95-108), restricted to the
data series it plots: hours = int(days * 24); the sampled instants are
observation_time + i hours for i in range(hours + 1); one altitude per
instant, zero-filled when the sample fails. -/
def plot_visibility_timeline (p : Provider) (body_name : String)
    (observation_time : Int) (location : Location) (days : ℚ) :
    List Int × List ℚ :=
  let hours := pyTrunc (days * 24)
  let times := (List.range (hours + 1).toNat).map
    (fun (i : ℕ) => observation_time + (i : Int))
  (times, times.map (timeline_altitude p body_name location))

/-- One plotted body of the sky map: position, label and magnitude
(src/main.py lines 139-143). -/
structure SkyPoint where
  az : ℚ
  alt : ℚ
  label : String
  magnitude : ℚ
  deriving DecidableEq

/-- ASCII lowercasing of one character, modelling Python str.lower() on the
ASCII body names the program works with. -/
def lowerChar (c : Char) : Char :=
  if c.toNat < 65 ∨ 90 < c.toNat then c else Char.ofNat (c.toNat + 32)

/-- Python str.lower() on the ASCII body names, character by character. -/
def pyLower (s : String) : String := String.mk (s.toList.map lowerChar)

/-- The label of one plotted body (src/main.py lines 136-137): capitalized
name, with the constellation in parentheses when the table has one. -/
def body_label (body_name : String) : String :=
  match List.lookup (pyLower body_name) constellations with
  | some c => body_name.capitalize ++ " (" ++ c ++ ")"
  | none => body_name.capitalize

/-- One iteration of the plot_sky_map body loop (src/main.py lines 134-143):
the transform into the horizontal frame is not wrapped in any handler, so its
failure propagates; the magnitude lookup on a missing key is likewise an
uncaught KeyError. -/
def sky_point (tr : String → Except String HorizontalFix)
    (body_name : String) : Except String SkyPoint :=
  match tr body_name with
  | Except.error e => Except.error e
  | Except.ok fix =>
      match List.lookup (pyLower body_name) telescope_recommendations with
      | none => Except.error ("KeyError: " ++ body_name)
      | some r =>
          Except.ok
            { az := fix.azimuth_deg
              alt := fix.altitude_deg
              label := body_label body_name
              magnitude := r.magnitude }

/-- The body loop of plot_sky_map (src/main.py lines 134-143): one point per
body, with no per-body error handling, so the first failure aborts the whole
list. -/
def sky_points (tr : String → Except String HorizontalFix) :
    List String → Except String (List SkyPoint)
  | [] => Except.ok []
  | b :: rest =>
      match sky_point tr b with
      | Except.error e => Except.error e
      | Except.ok pt =>
          match sky_points tr rest with
          | Except.error e => Except.error e
          | Except.ok pts => Except.ok (pt :: pts)

/-- The numpy global-RNG seeding call, modelled abstractly: a function from
the seed to an RNG state (np.random.seed on src/main.py line 127). -/
abbrev RngSeed := Nat → Nat

/-- The numpy uniform sampler, modelled abstractly: low, high, count and RNG
state in, sampled values and successor state out (np.random.uniform on
src/main.py lines 128-129). -/
abbrev RngUniform := ℚ → ℚ → Nat → Nat → List ℚ × Nat

/-- The decorative background scatter of plot_sky_map (src/main.py lines
127-129): seed the global RNG with the constant 42, then draw 50 azimuths
uniform over [0, 360) and 50 altitudes uniform over [0, 90).  A function of
the external RNG alone; no per-run input reaches it. -/
def sky_map_background (seedF : RngSeed) (uniformF : RngUniform) :
    List ℚ × List ℚ :=
  let s0 := seedF 42
  let draw1 := uniformF 0 360 50 s0
  let draw2 := uniformF 0 90 50 draw1.2
  (draw1.1, draw2.1)

/-- The data of the sky-map figure: the background scatter plus one point per
body. -/
structure SkyMapFig where
  background_az : List ℚ
  background_alt : List ℚ
  points : List SkyPoint
  deriving DecidableEq

/-- plot_sky_map (src/main.py lines 124-151), restricted to the data it
draws: the seeded background scatter is added first, then one point per body;
a failure inside the body loop aborts the whole figure. -/
def plot_sky_map (seedF : RngSeed) (uniformF : RngUniform)
    (tr : String → Except String HorizontalFix) (body_names : List String) :
    Except String SkyMapFig :=
  let bg := sky_map_background seedF uniformF
  match sky_points tr body_names with
  | Except.error e => Except.error e
  | Except.ok pts =>
      Except.ok { background_az := bg.1, background_alt := bg.2, points := pts }

/-- The per-body telescope-table lookup of generate_pdf (src/main.py lines
169-170); a missing key is an uncaught KeyError. -/
def pdf_lookup (body_name : String) : Except String TelescopeRec :=
  match List.lookup (pyLower body_name) telescope_recommendations with
  | some r => Except.ok r
  | none => Except.error ("KeyError: " ++ body_name)

/-- What the Check Visibility handler displays: the error messages it shows
and the per-body results it shows. -/
structure HandlerView where
  errors_shown : List String
  results_shown : List (String × VisibilityInfo)
  deriving DecidableEq

/-- The per-body collection loop of the Check Visibility handler
(src/main.py lines 329-335): successes and errors accumulate separately; a
failing body never stops the iteration. -/
def collect_visibility (p : Provider) (body_names : List String)
    (observation_time : Int) (location : Location) :
    List (String × VisibilityInfo) × List String :=
  body_names.foldl
    (fun acc b =>
      match check_visibility p b observation_time location with
      | Except.ok info => (acc.1 ++ [(b, info)], acc.2)
      | Except.error e => (acc.1, acc.2 ++ [e]))
    ([], [])

/-- The Check Visibility button handler (src/main.py lines 324-341): when any
error was collected, only the errors are displayed and the whole results
branch (results, sky map, timelines, PDF) is skipped; otherwise the per-body
results are displayed. -/
def check_visibility_button (p : Provider) (body_names : List String)
    (observation_time : Int) (location : Location) : HandlerView :=
  let c := collect_visibility p body_names observation_time location
  if c.2.isEmpty then { errors_shown := [], results_shown := c.1 }
  else { errors_shown := c.2, results_shown := [] }

/-- Whether the pattern occurs as a contiguous run at the front of the text,
on character lists. -/
def startsWithCh : List Char → List Char → Bool
  | [], _ => true
  | _ :: _, [] => false
  | c :: cs, d :: ds => c == d && startsWithCh cs ds

/-- Whether the pattern occurs as a contiguous substring of the text, on
character lists. -/
def containsCh (pat : List Char) : List Char → Bool
  | [] => pat.isEmpty
  | d :: ds => startsWithCh pat (d :: ds) || containsCh pat ds

/-- Whether the message mentions every one of the given names as a
substring. -/
def mentionsAll (names : List String) (msg : String) : Bool :=
  names.all (fun n => containsCh n.toList msg.toList)

/-- The seven-planet catalog named by the specification. -/
def planet_catalog : List String :=
  ["mercury", "venus", "mars", "jupiter", "saturn", "uranus", "neptune"]

/-- The New Delhi observer location of src/main.py line 298. -/
def delhi : Location := { lat := 28.6139, lon := 77.2090, height := 216 }

/-- A provider for which every resolution fails. -/
def failProvider : Provider := fun _ _ _ => Except.error "resolution failure"

/-- A provider for which every resolution yields the same fix. -/
def constProvider : Provider :=
  fun _ _ _ => Except.ok { altitude_deg := 45, azimuth_deg := 120 }

/-- A provider that fails at instant 0 and yields altitude exactly -90 at
every other instant. -/
def tieProvider : Provider := fun _ t _ =>
  if t = 0 then Except.error "sample failure"
  else Except.ok { altitude_deg := -90, azimuth_deg := 0 }

/-- A provider that attains its maximum altitude 50 at instants 1 and 2 and
altitude 20 everywhere else. -/
def twoPeakProvider : Provider := fun _ t _ =>
  Except.ok { altitude_deg := if t = 1 ∨ t = 2 then 50 else 20, azimuth_deg := 0 }

/-- A provider that fails on pluto with an astropy-style message and resolves
every other body. -/
def plutoProvider : Provider := fun b _ _ =>
  if b = "pluto" then Except.error "Unknown target"
  else Except.ok { altitude_deg := 45, azimuth_deg := 120 }

/-- A transform that succeeds on every body with the same fix. -/
def okTransform : String → Except String HorizontalFix :=
  fun _ => Except.ok { altitude_deg := 45, azimuth_deg := 120 }

/-- A transform that fails on every body. -/
def errTransform : String → Except String HorizontalFix :=
  fun _ => Except.error "transform failure"

/-- A degenerate RNG seeding function for witnesses. -/
def idSeed : RngSeed := fun s => s

/-- A degenerate uniform sampler for witnesses: repeats the lower bound. -/
def repUniform : RngUniform := fun lo _ n s => (List.replicate n lo, s)

/-- Python int() truncation agrees with the floor on nonnegative inputs. -/
theorem pyTrunc_eq_floor (q : ℚ) (h : 0 ≤ q) : pyTrunc q = ⌊q⌋ := by
  rw [pyTrunc, if_pos h, Rat.floor_def', ← Rat.floor_def]

/-- The floor-bracket form of pyTrunc on nonnegative inputs, as a sanity
bridge used by the timeline theorem. -/
theorem pyTrunc_nonneg (q : ℚ) (h : 0 ≤ q) : 0 ≤ pyTrunc q := by
  rw [pyTrunc_eq_floor q h]
  exact Int.floor_nonneg.mpr h

/-- The loop step of find_best_time, phrased through the sampled altitude. -/
theorem bestStep_succAlt (p : Provider) (body_name : String)
    (location : Location) (acc : Int × ℚ) (t : Int) :
    bestStep p body_name location acc t =
      match succAlt p body_name location t with
      | none => acc
      | some a => if a > acc.2 then (t, a) else acc := by
  unfold bestStep succAlt
  cases p body_name t location <;> rfl

/-- When no sample of the list strictly exceeds the running maximum, the fold
of the find_best_time step leaves the accumulator unchanged. -/
theorem foldl_bestStep_stable (p : Provider) (body_name : String)
    (location : Location) :
    ∀ (ts : List Int) (t0 : Int) (m0 : ℚ),
      (∀ t ∈ ts, ∀ a, succAlt p body_name location t = some a → a ≤ m0) →
      ts.foldl (bestStep p body_name location) (t0, m0) = (t0, m0) := by
  intro ts
  induction ts with
  | nil => intro t0 m0 _; rfl
  | cons t rest ih =>
      intro t0 m0 h
      have hstep : bestStep p body_name location (t0, m0) t = (t0, m0) := by
        rw [bestStep_succAlt]
        cases hs : succAlt p body_name location t with
        | none => rfl
        | some a =>
            have ha : a ≤ m0 := h t (by simp) a hs
            simp only []
            rw [if_neg (not_lt.mpr ha)]
      rw [List.foldl_cons, hstep]
      exact ih t0 m0 (fun u hu a ha => h u (List.mem_cons_of_mem t hu) a ha)

/-- The best instant computed by the fold is the initial one or a member of
the sampled list. -/
theorem foldl_bestStep_mem (p : Provider) (body_name : String)
    (location : Location) :
    ∀ (ts : List Int) (acc : Int × ℚ),
      (ts.foldl (bestStep p body_name location) acc).1 = acc.1 ∨
      (ts.foldl (bestStep p body_name location) acc).1 ∈ ts := by
  intro ts
  induction ts with
  | nil => intro acc; left; rfl
  | cons t rest ih =>
      intro acc
      rw [List.foldl_cons]
      rcases ih (bestStep p body_name location acc t) with h | h
      · rw [h, bestStep_succAlt]
        cases hs : succAlt p body_name location t with
        | none => left; rfl
        | some a =>
            simp only []
            by_cases hgt : a > acc.2
            · right; rw [if_pos hgt]; exact List.mem_cons_self t rest
            · left; rw [if_neg hgt]
      · right; exact List.mem_cons_of_mem t h

/-- If the running maximum starts strictly below a, no sample exceeds a, and
the first sample attaining a is tf, then the fold ends exactly at (tf, a). -/
theorem foldl_bestStep_first_max (p : Provider) (body_name : String)
    (location : Location) (a : ℚ) :
    ∀ (ts : List Int) (t0 : Int) (m0 : ℚ),
      m0 < a →
      (∀ t ∈ ts, ∀ b, succAlt p body_name location t = some b → b ≤ a) →
      ∀ tf, ts.find? (fun t => succAlt p body_name location t == some a) = some tf →
      ts.foldl (bestStep p body_name location) (t0, m0) = (tf, a) := by
  intro ts
  induction ts with
  | nil => intro t0 m0 _ _ tf hf; simp at hf
  | cons t rest ih =>
      intro t0 m0 hm0 hbound tf hf
      by_cases hp : (succAlt p body_name location t == some a) = true
      · have heq : succAlt p body_name location t = some a := by
          exact eq_of_beq hp
        simp only [List.find?_cons, hp] at hf
        injection hf with hf
        subst hf
        rw [List.foldl_cons, bestStep_succAlt, heq]
        simp only []
        rw [if_pos hm0]
        exact foldl_bestStep_stable p body_name location rest t a
          (fun u hu b hb => hbound u (List.mem_cons_of_mem t hu) b hb)
      · have hne : succAlt p body_name location t ≠ some a := by
          intro hcontra
          exact hp (by rw [hcontra]; exact beq_self_eq_true (some a))
        rw [Bool.not_eq_true] at hp
        simp only [List.find?_cons, hp] at hf
        rw [List.foldl_cons, bestStep_succAlt]
        cases hs : succAlt p body_name location t with
        | none =>
            exact ih t0 m0 hm0
              (fun u hu b hb => hbound u (List.mem_cons_of_mem t hu) b hb) tf hf
        | some b =>
            have hba : b ≤ a := hbound t (List.mem_cons_self t rest) b hs
            have hblt : b < a := lt_of_le_of_ne hba (by rintro rfl; exact hne hs)
            simp only []
            by_cases hgt : b > m0
            · rw [if_pos hgt]
              exact ih t b hblt
                (fun u hu c hc => hbound u (List.mem_cons_of_mem t hu) c hc) tf hf
            · rw [if_neg hgt]
              exact ih t0 m0 hm0
                (fun u hu c hc => hbound u (List.mem_cons_of_mem t hu) c hc) tf hf

/-- find? over a mapped interval returns the image of the first index whose
image satisfies the predicate. -/
theorem find_eq_of_map_range (f : ℕ → Int) (pred : Int → Bool) :
    ∀ (n s i : ℕ), s ≤ i → i < s + n →
      (∀ k, s ≤ k → k < i → pred (f k) = false) →
      pred (f i) = true →
      ((List.range' s n).map f).find? pred = some (f i) := by
  intro n
  induction n with
  | zero => intro s i h1 h2 _ _; omega
  | succ n ih =>
      intro s i h1 h2 hlow hi
      rw [List.range'_succ, List.map_cons]
      by_cases hsi : s = i
      · subst hsi
        exact List.find?_cons_of_pos _ hi
      · have hps : pred (f s) = false := hlow s le_rfl (by omega)
        rw [List.find?_cons_of_neg _ (by simp [hps])]
        exact ih (s + 1) i (by omega) (by omega)
          (fun k hk1 hk2 => hlow k (by omega) hk2) hi

/-- The collection loop of the button handler accumulates exactly the
successes and the errors of the per-body evaluations, in order. -/
theorem collect_visibility_spec (p : Provider) (observation_time : Int)
    (location : Location) (body_names : List String) :
    collect_visibility p body_names observation_time location =
      (body_names.filterMap (fun b =>
        match check_visibility p b observation_time location with
        | Except.ok info => some (b, info)
        | Except.error _ => none),
       body_names.filterMap (fun b =>
        match check_visibility p b observation_time location with
        | Except.ok _ => none
        | Except.error e => some e)) := by
  have general : ∀ (names : List String)
      (acc : List (String × VisibilityInfo) × List String),
      names.foldl
        (fun acc b =>
          match check_visibility p b observation_time location with
          | Except.ok info => (acc.1 ++ [(b, info)], acc.2)
          | Except.error e => (acc.1, acc.2 ++ [e])) acc =
      (acc.1 ++ names.filterMap (fun b =>
        match check_visibility p b observation_time location with
        | Except.ok info => some (b, info)
        | Except.error _ => none),
       acc.2 ++ names.filterMap (fun b =>
        match check_visibility p b observation_time location with
        | Except.ok _ => none
        | Except.error e => some e)) := by
    intro names
    induction names with
    | nil => intro acc; simp
    | cons b rest ih =>
        intro acc
        rw [List.foldl_cons, ih, List.filterMap_cons, List.filterMap_cons]
        cases check_visibility p b observation_time location <;> simp
  rw [collect_visibility, general]
  simp

/-- A failing body makes the sky-map body loop fail as a whole. -/
theorem sky_points_error_of_mem (tr : String → Except String HorizontalFix)
    (b : String) (e : String) (he : tr b = Except.error e) :
    ∀ (body_names : List String), b ∈ body_names →
      ∃ err, sky_points tr body_names = Except.error err := by
  intro body_names
  induction body_names with
  | nil => intro hb; simp at hb
  | cons x rest ih =>
      intro hb
      rcases List.mem_cons.mp hb with hbx | hbr
      · subst hbx
        refine ⟨e, ?_⟩
        unfold sky_points sky_point
        rw [he]
      · rcases ih hbr with ⟨err, herr⟩
        unfold sky_points
        cases hx : sky_point tr x with
        | error e2 => exact ⟨e2, rfl⟩
        | ok pt => rw [herr]; exact ⟨err, rfl⟩

/-- A successfully produced sky-map figure carries exactly the seeded
background scatter. -/
theorem plot_sky_map_background_of_ok (seedF : RngSeed) (uniformF : RngUniform)
    (tr : String → Except String HorizontalFix) (body_names : List String)
    (fig : SkyMapFig) (h : plot_sky_map seedF uniformF tr body_names = Except.ok fig) :
    fig.background_az = (sky_map_background seedF uniformF).1 ∧
    fig.background_alt = (sky_map_background seedF uniformF).2 := by
  unfold plot_sky_map at h
  cases hpts : sky_points tr body_names with
  | error e => rw [hpts] at h; simp at h
  | ok pts =>
      rw [hpts] at h
      simp only [Except.ok.injEq] at h
      rw [← h]
      exact ⟨rfl, rfl⟩

/-- Claim C1: whenever check_visibility returns a verdict, the verdict's
visible flag is true exactly when the altitude it computed for the body at
the query instant is strictly greater than 10 degrees. -/
theorem check_visibility_visible_iff (p : Provider) (body_name : String)
    (observation_time : Int) (location : Location) (fix : HorizontalFix)
    (h : p body_name observation_time location = Except.ok fix) :
    ∃ info, check_visibility p body_name observation_time location = Except.ok info ∧
      info.altitude = fix.altitude_deg ∧
      (info.visible = true ↔ info.altitude > 10) := by
  unfold check_visibility
  rw [h]
  exact ⟨_, rfl, rfl, by simp⟩

/-- Claim C1 witness: a concrete provider returning altitude 45 at the query
instant yields a verdict whose visible flag agrees with 45 > 10. -/
theorem check_visibility_visible_iff_witness :
    constProvider "jupiter" 0 delhi = Except.ok { altitude_deg := 45, azimuth_deg := 120 } ∧
    ∃ info, check_visibility constProvider "jupiter" 0 delhi = Except.ok info ∧
      info.altitude = ({ altitude_deg := 45, azimuth_deg := 120 } : HorizontalFix).altitude_deg ∧
      (info.visible = true ↔ info.altitude > 10) :=
  ⟨rfl, check_visibility_visible_iff constProvider "jupiter" 0 delhi
    { altitude_deg := 45, azimuth_deg := 120 } rfl⟩

/-- Claim C2: find_best_time samples exactly the 25 candidates
start_time + k hours for k = 0..24, and the best instant it returns is one of
them: start_time + k for some k at most 24. -/
theorem find_best_time_in_window (p : Provider) (body_name : String)
    (start_time : Int) (location : Location) :
    (best_time_candidates start_time).length = 25 ∧
    (∀ k (hk : k < (best_time_candidates start_time).length),
      (best_time_candidates start_time).get ⟨k, hk⟩ = start_time + k) ∧
    ∃ k : ℕ, k ≤ 24 ∧
      (find_best_time p body_name start_time location).1 = start_time + k := by
  refine ⟨rfl, ?_, ?_⟩
  · intro k hk
    simp only [best_time_candidates, List.get_eq_getElem, List.getElem_map,
      List.getElem_range]
  · rcases foldl_bestStep_mem p body_name location (best_time_candidates start_time)
      (start_time, -90) with h | h
    · refine ⟨0, by omega, ?_⟩
      rw [find_best_time, h]
      simp
    · rw [best_time_candidates, List.mem_map] at h
      rcases h with ⟨i, hi, hix⟩
      rw [List.mem_range] at hi
      refine ⟨i, by omega, ?_⟩
      rw [find_best_time]
      exact hix.symm

/-- Claim C2 witness: the window property instantiated at a concrete
provider, body, start instant and location. -/
theorem find_best_time_in_window_witness :
    (best_time_candidates 0).length = 25 ∧
    (∀ k (hk : k < (best_time_candidates 0).length),
      (best_time_candidates 0).get ⟨k, hk⟩ = 0 + k) ∧
    ∃ k : ℕ, k ≤ 24 ∧ (find_best_time constProvider "jupiter" 0 delhi).1 = 0 + k :=
  find_best_time_in_window constProvider "jupiter" 0 delhi

set_option maxRecDepth 8000 in
/-- Claim C3 counterexample: with start instant 0, tieProvider fails at the
first candidate and succeeds with altitude exactly -90 at every later
candidate.  Instants 1 and 2 are then two successfully sampled instants
attaining the maximum sampled altitude (-90), so the earliest such instant is
1, yet find_best_time returns instant 0, the initialization value: an
altitude equal to the initial -90 running maximum never passes the strict
comparison, so no update ever happens. -/
theorem find_best_time_tie_counterexample :
    succAlt tieProvider "mars" delhi 1 = some (-90) ∧
    succAlt tieProvider "mars" delhi 2 = some (-90) ∧
    ((List.range 25).all (fun k =>
      match succAlt tieProvider "mars" delhi ((0 : Int) + k) with
      | some a => decide (a ≤ -90)
      | none => true)) = true ∧
    find_best_time tieProvider "mars" 0 delhi = (0, -90) ∧
    (0 : Int) ≠ 1 := by
  exact ⟨by decide, by decide, by decide, by decide, by decide⟩

/-- Claim C3 (amended): when two or more successfully sampled instants attain
the same maximum altitude and that maximum is strictly greater than the -90
initialization value, the earliest such instant is returned; if every
successful sample sits exactly at -90 the function returns start_time
instead, whether or not start_time was successfully sampled. -/
theorem find_best_time_tie_earliest (p : Provider) (body_name : String)
    (start_time : Int) (location : Location) (a : ℚ) (i j : ℕ)
    (hij : i < j) (hj : j ≤ 24)
    (hi : succAlt p body_name location (start_time + i) = some a)
    (hjs : succAlt p body_name location (start_time + j) = some a)
    (ha : (-90 : ℚ) < a)
    (hmax : ∀ k : ℕ, k ≤ 24 → ∀ b,
      succAlt p body_name location (start_time + k) = some b → b ≤ a)
    (hfirst : ∀ k : ℕ, k < i →
      succAlt p body_name location (start_time + k) ≠ some a) :
    find_best_time p body_name start_time location = (start_time + i, a) := by
  have hi25 : i < 25 := by omega
  have hcand : best_time_candidates start_time =
      (List.range' 0 25).map (fun (k : ℕ) => start_time + (k : Int)) := by
    rw [best_time_candidates, List.range_eq_range']
  have hbound : ∀ t ∈ best_time_candidates start_time, ∀ b,
      succAlt p body_name location t = some b → b ≤ a := by
    intro t ht b hb
    rw [best_time_candidates, List.mem_map] at ht
    rcases ht with ⟨k, hk, rfl⟩
    rw [List.mem_range] at hk
    exact hmax k (by omega) b hb
  have hfind : (best_time_candidates start_time).find?
      (fun t => succAlt p body_name location t == some a) =
      some (start_time + (i : Int)) := by
    rw [hcand]
    apply find_eq_of_map_range (fun (k : ℕ) => start_time + (k : Int))
      (fun t => succAlt p body_name location t == some a) 25 0 i (Nat.zero_le i)
      (by omega)
    · intro k _ hk
      exact beq_eq_false_iff_ne.mpr (hfirst k hk)
    · rw [hi]
      exact beq_self_eq_true (some a)
  rw [find_best_time]
  exact foldl_bestStep_first_max p body_name location a
    (best_time_candidates start_time) start_time (-90) ha hbound
    (start_time + (i : Int)) hfind

/-- Claim C3 amended witness: a provider peaking with altitude 50 at both
instants 1 and 2 makes find_best_time return instant 1, the earlier of the
two maximizers. -/
theorem find_best_time_tie_earliest_witness :
    succAlt twoPeakProvider "mars" delhi (0 + ((1 : ℕ) : Int)) = some 50 ∧
    succAlt twoPeakProvider "mars" delhi (0 + ((2 : ℕ) : Int)) = some 50 ∧
    find_best_time twoPeakProvider "mars" 0 delhi = (0 + ((1 : ℕ) : Int), 50) := by
  refine ⟨by decide, by decide, ?_⟩
  apply find_best_time_tie_earliest twoPeakProvider "mars" 0 delhi 50 1 2
  · decide
  · decide
  · decide
  · decide
  · decide
  · intro k hk b hb
    simp only [succAlt, twoPeakProvider, Option.some.injEq] at hb
    rw [← hb]
    split <;> decide
  · intro k hk
    have hk0 : k = 0 := by omega
    subst hk0
    decide

/-- Claim C4: when every one of the 25 samples fails, find_best_time still
returns normally with exactly (start_time, -90): failures are skipped and
the initial accumulator is never replaced. -/
theorem find_best_time_all_fail (p : Provider) (body_name : String)
    (start_time : Int) (location : Location)
    (h : ∀ k : ℕ, k < 25 → succAlt p body_name location (start_time + k) = none) :
    find_best_time p body_name start_time location = (start_time, -90) := by
  rw [find_best_time]
  apply foldl_bestStep_stable
  intro t ht a ha
  rw [best_time_candidates, List.mem_map] at ht
  rcases ht with ⟨k, hk, rfl⟩
  rw [List.mem_range] at hk
  rw [h k hk] at ha
  cases ha

/-- Claim C4 witness: a provider failing everywhere makes all 25 samples
fail, and find_best_time returns (0, -90). -/
theorem find_best_time_all_fail_witness :
    (∀ k : ℕ, k < 25 → succAlt failProvider "mars" delhi ((0 : Int) + k) = none) ∧
    find_best_time failProvider "mars" 0 delhi = (0, -90) :=
  ⟨fun _ _ => rfl, find_best_time_all_fail failProvider "mars" 0 delhi (fun _ _ => rfl)⟩

/-- Claim C5: for every positive days value the timeline series has exactly
floor(days * 24) + 1 samples; sample k sits at observation_time + k hours, in
strictly chronological order; a failing sample contributes altitude exactly 0
at its own slot instead of being omitted. -/
theorem plot_visibility_timeline_spec (p : Provider) (body_name : String)
    (observation_time : Int) (location : Location) (days : ℚ) (hd : 0 < days) :
    (plot_visibility_timeline p body_name observation_time location days).1.length =
      (⌊days * 24⌋).toNat + 1 ∧
    (plot_visibility_timeline p body_name observation_time location days).2.length =
      (⌊days * 24⌋).toNat + 1 ∧
    (∀ k (hk : k < (plot_visibility_timeline p body_name observation_time location days).1.length),
      (plot_visibility_timeline p body_name observation_time location days).1.get ⟨k, hk⟩ =
        observation_time + k) ∧
    (∀ k (hk : k < (plot_visibility_timeline p body_name observation_time location days).2.length),
      (plot_visibility_timeline p body_name observation_time location days).2.get ⟨k, hk⟩ =
        (match p body_name (observation_time + k) location with
         | Except.ok fix => fix.altitude_deg
         | Except.error _ => 0)) ∧
    (∀ k1 k2 (h1 : k1 < (plot_visibility_timeline p body_name observation_time location days).1.length)
        (h2 : k2 < (plot_visibility_timeline p body_name observation_time location days).1.length),
      k1 < k2 →
      (plot_visibility_timeline p body_name observation_time location days).1.get ⟨k1, h1⟩ <
        (plot_visibility_timeline p body_name observation_time location days).1.get ⟨k2, h2⟩) := by
  have hq : (0 : ℚ) ≤ days * 24 := by positivity
  have htr : pyTrunc (days * 24) = ⌊days * 24⌋ := pyTrunc_eq_floor _ hq
  have hfl : 0 ≤ ⌊days * 24⌋ := Int.floor_nonneg.mpr hq
  have hlen : (pyTrunc (days * 24) + 1).toNat = (⌊days * 24⌋).toNat + 1 := by
    rw [htr]
    omega
  refine ⟨?_, ?_, ?_, ?_, ?_⟩
  · simp only [plot_visibility_timeline, List.length_map, List.length_range]
    exact hlen
  · simp only [plot_visibility_timeline, List.length_map, List.length_range]
    exact hlen
  · intro k hk
    simp only [plot_visibility_timeline, List.get_eq_getElem, List.getElem_map,
      List.getElem_range]
  · intro k hk
    simp only [plot_visibility_timeline, List.get_eq_getElem, List.getElem_map,
      List.getElem_range, timeline_altitude]
  · intro k1 k2 h1 h2 hlt
    simp only [plot_visibility_timeline, List.get_eq_getElem, List.getElem_map,
      List.getElem_range]
    omega

/-- Claim C5 witness: at days = 1 with the everywhere-failing provider the
instantiated timeline specification holds; in particular every slot carries
the zero-fill altitude. -/
theorem plot_visibility_timeline_spec_witness :
    (0 : ℚ) < 1 ∧
    ((plot_visibility_timeline failProvider "mars" 0 delhi 1).1.length =
      (⌊(1 : ℚ) * 24⌋).toNat + 1 ∧
    (plot_visibility_timeline failProvider "mars" 0 delhi 1).2.length =
      (⌊(1 : ℚ) * 24⌋).toNat + 1 ∧
    (∀ k (hk : k < (plot_visibility_timeline failProvider "mars" 0 delhi 1).1.length),
      (plot_visibility_timeline failProvider "mars" 0 delhi 1).1.get ⟨k, hk⟩ = 0 + k) ∧
    (∀ k (hk : k < (plot_visibility_timeline failProvider "mars" 0 delhi 1).2.length),
      (plot_visibility_timeline failProvider "mars" 0 delhi 1).2.get ⟨k, hk⟩ =
        (match failProvider "mars" ((0 : Int) + k) delhi with
         | Except.ok fix => fix.altitude_deg
         | Except.error _ => 0)) ∧
    (∀ k1 k2 (h1 : k1 < (plot_visibility_timeline failProvider "mars" 0 delhi 1).1.length)
        (h2 : k2 < (plot_visibility_timeline failProvider "mars" 0 delhi 1).1.length),
      k1 < k2 →
      (plot_visibility_timeline failProvider "mars" 0 delhi 1).1.get ⟨k1, h1⟩ <
        (plot_visibility_timeline failProvider "mars" 0 delhi 1).1.get ⟨k2, h2⟩)) :=
  ⟨by decide, plot_visibility_timeline_spec failProvider "mars" 0 delhi 1 (by decide)⟩

/-- Claim C6 (amended): a failing resolution short-circuits check_visibility
before the best-time sampling ever runs: the outcome is the wrapped error
message and is fully determined by the single failing resolution (any
provider failing identically at the query instant yields the identical
outcome).  The message quotes the body name and the underlying error text but
does not enumerate the supported catalog. -/
theorem check_visibility_unknown_body (p : Provider) (body_name : String)
    (observation_time : Int) (location : Location) (e : String)
    (h : p body_name observation_time location = Except.error e) :
    check_visibility p body_name observation_time location =
      Except.error ("Error: Unable to find coordinates for \x27" ++ body_name ++
        "\x27 (" ++ e ++ ").") ∧
    ∀ q : Provider, q body_name observation_time location = Except.error e →
      check_visibility q body_name observation_time location =
        check_visibility p body_name observation_time location := by
  constructor
  · unfold check_visibility
    rw [h]
  · intro q hq
    unfold check_visibility
    rw [h, hq]

/-- Claim C6 amended witness: the everywhere-failing provider produces the
wrapped message for saturn, and any provider failing identically at that
instant produces the identical outcome. -/
theorem check_visibility_unknown_body_witness :
    failProvider "saturn" 0 delhi = Except.error "resolution failure" ∧
    (check_visibility failProvider "saturn" 0 delhi =
      Except.error ("Error: Unable to find coordinates for \x27" ++ "saturn" ++
        "\x27 (" ++ "resolution failure" ++ ").") ∧
    ∀ q : Provider, q "saturn" 0 delhi = Except.error "resolution failure" →
      check_visibility q "saturn" 0 delhi =
        check_visibility failProvider "saturn" 0 delhi) :=
  ⟨rfl, check_visibility_unknown_body failProvider "saturn" 0 delhi
    "resolution failure" rfl⟩

/-- Claim C6 counterexample: for the unknown body pluto the failure message
produced by check_visibility is the wrapped resolution error; it does not
enumerate the seven-planet catalog (it mentions none of the planet names). -/
theorem check_visibility_pluto_counterexample :
    check_visibility plutoProvider "pluto" 0 delhi =
      Except.error "Error: Unable to find coordinates for \x27pluto\x27 (Unknown target)." ∧
    mentionsAll planet_catalog
      "Error: Unable to find coordinates for \x27pluto\x27 (Unknown target)." = false := by
  exact ⟨rfl, by decide⟩

/-- Claim C7 (amended): the handler iterates every body, collecting one error
per failing body and one verdict per succeeding body; but as soon as at least
one body failed, it presents only the collected errors and presents no
results at all, even for the bodies that resolved successfully. -/
theorem button_handler_error_scope (p : Provider) (body_names : List String)
    (observation_time : Int) (location : Location) (b : String) (e : String)
    (hb : b ∈ body_names)
    (he : check_visibility p b observation_time location = Except.error e) :
    (check_visibility_button p body_names observation_time location).results_shown = [] ∧
    (check_visibility_button p body_names observation_time location).errors_shown =
      body_names.filterMap (fun x =>
        match check_visibility p x observation_time location with
        | Except.ok _ => none
        | Except.error err => some err) := by
  have hmem : e ∈ (collect_visibility p body_names observation_time location).2 := by
    rw [collect_visibility_spec]
    exact List.mem_filterMap.mpr ⟨b, hb, by rw [he]⟩
  have hne : (collect_visibility p body_names observation_time location).2.isEmpty = false := by
    cases hc : (collect_visibility p body_names observation_time location).2 with
    | nil => rw [hc] at hmem; cases hmem
    | cons _ _ => rfl
  constructor
  · simp only [check_visibility_button, hne, Bool.false_eq_true, if_false]
  · simp only [check_visibility_button, hne, Bool.false_eq_true, if_false]
    rw [collect_visibility_spec]

/-- Claim C7 counterexample: with pluto failing and jupiter succeeding, the
handler presents no results at all: jupiter's verdict is computed but never
shown, because the presence of any error suppresses the whole results
branch. -/
theorem button_handler_counterexample :
    (check_visibility plutoProvider "jupiter" 0 delhi).toOption.isSome = true ∧
    (check_visibility_button plutoProvider ["pluto", "jupiter"] 0 delhi).errors_shown =
      ["Error: Unable to find coordinates for \x27pluto\x27 (Unknown target)."] ∧
    (check_visibility_button plutoProvider ["pluto", "jupiter"] 0 delhi).results_shown = [] := by
  exact ⟨rfl, rfl, rfl⟩

/-- Claim C7 amended witness: at the concrete failing batch, the handler
shows exactly the collected error messages and no results. -/
theorem button_handler_error_scope_witness :
    ("pluto" ∈ ["pluto", "jupiter"]) ∧
    check_visibility plutoProvider "pluto" 0 delhi =
      Except.error "Error: Unable to find coordinates for \x27pluto\x27 (Unknown target)." ∧
    ((check_visibility_button plutoProvider ["pluto", "jupiter"] 0 delhi).results_shown = [] ∧
    (check_visibility_button plutoProvider ["pluto", "jupiter"] 0 delhi).errors_shown =
      ["pluto", "jupiter"].filterMap (fun x =>
        match check_visibility plutoProvider x 0 delhi with
        | Except.ok _ => none
        | Except.error err => some err)) :=
  ⟨by decide, rfl,
   button_handler_error_scope plutoProvider ["pluto", "jupiter"] 0 delhi "pluto"
     "Error: Unable to find coordinates for \x27pluto\x27 (Unknown target)."
     (by decide) rfl⟩

/-- Claim C8: a transform failure for any one selected body is not caught by
the sky-map projection: it aborts the whole figure, so no figure data is
produced for any body. -/
theorem plot_sky_map_failure_aborts (seedF : RngSeed) (uniformF : RngUniform)
    (tr : String → Except String HorizontalFix) (body_names : List String)
    (b : String) (e : String) (hb : b ∈ body_names) (he : tr b = Except.error e) :
    ∃ err, plot_sky_map seedF uniformF tr body_names = Except.error err := by
  rcases sky_points_error_of_mem tr b e he body_names hb with ⟨err, herr⟩
  refine ⟨err, ?_⟩
  simp only [plot_sky_map, herr]

/-- Claim C8 witness: one failing body aborts the concrete projection. -/
theorem plot_sky_map_failure_aborts_witness :
    ("mars" ∈ ["mars"]) ∧
    errTransform "mars" = Except.error "transform failure" ∧
    ∃ err, plot_sky_map idSeed repUniform errTransform ["mars"] = Except.error err :=
  ⟨by decide, rfl,
   plot_sky_map_failure_aborts idSeed repUniform errTransform ["mars"] "mars"
     "transform failure" (by decide) rfl⟩

/-- Claim C9: the decorative background scatter is generated from the fixed
seed 42 and no per-run input reaches it, so any two successfully produced
figures carry the identical backdrop; under the numpy contract that uniform
draws lie in the requested half-open range, every background azimuth lies in
[0, 360) and every background altitude in [0, 90). -/
theorem sky_map_background_deterministic (seedF : RngSeed) (uniformF : RngUniform)
    (tr1 tr2 : String → Except String HorizontalFix)
    (names1 names2 : List String) (fig1 fig2 : SkyMapFig)
    (hU : ∀ (lo hi : ℚ) (n s : Nat), lo < hi →
      ∀ x ∈ (uniformF lo hi n s).1, lo ≤ x ∧ x < hi)
    (h1 : plot_sky_map seedF uniformF tr1 names1 = Except.ok fig1)
    (h2 : plot_sky_map seedF uniformF tr2 names2 = Except.ok fig2) :
    fig1.background_az = fig2.background_az ∧
    fig1.background_alt = fig2.background_alt ∧
    (∀ x ∈ fig1.background_az, 0 ≤ x ∧ x < 360) ∧
    (∀ x ∈ fig1.background_alt, 0 ≤ x ∧ x < 90) := by
  obtain ⟨haz1, halt1⟩ := plot_sky_map_background_of_ok seedF uniformF tr1 names1 fig1 h1
  obtain ⟨haz2, halt2⟩ := plot_sky_map_background_of_ok seedF uniformF tr2 names2 fig2 h2
  have hb1 : (sky_map_background seedF uniformF).1 =
      (uniformF 0 360 50 (seedF 42)).1 := rfl
  have hb2 : (sky_map_background seedF uniformF).2 =
      (uniformF 0 90 50 (uniformF 0 360 50 (seedF 42)).2).1 := rfl
  refine ⟨by rw [haz1, haz2], by rw [halt1, halt2], ?_, ?_⟩
  · intro x hx
    rw [haz1, hb1] at hx
    exact hU 0 360 50 (seedF 42) (by norm_num) x hx
  · intro x hx
    rw [halt1, hb2] at hx
    exact hU 0 90 50 (uniformF 0 360 50 (seedF 42)).2 (by norm_num) x hx

/-- The figure produced by the degenerate witness RNG on an empty body
list. -/
def emptyFig : SkyMapFig :=
  { background_az := List.replicate 50 0
    background_alt := List.replicate 50 0
    points := [] }

/-- Claim C9 witness: the degenerate in-range RNG satisfies the numpy
contract and the instantiated backdrop determinism and ranges hold. -/
theorem sky_map_background_deterministic_witness :
    (∀ (lo hi : ℚ) (n s : Nat), lo < hi →
      ∀ x ∈ (repUniform lo hi n s).1, lo ≤ x ∧ x < hi) ∧
    (emptyFig.background_az = emptyFig.background_az ∧
     emptyFig.background_alt = emptyFig.background_alt ∧
     (∀ x ∈ emptyFig.background_az, 0 ≤ x ∧ x < 360) ∧
     (∀ x ∈ emptyFig.background_alt, 0 ≤ x ∧ x < 90)) := by
  have hU : ∀ (lo hi : ℚ) (n s : Nat), lo < hi →
      ∀ x ∈ (repUniform lo hi n s).1, lo ≤ x ∧ x < hi := by
    intro lo hi n s hlt x hx
    rw [List.eq_of_mem_replicate hx]
    exact ⟨le_refl lo, hlt⟩
  exact ⟨hU, sky_map_background_deterministic idSeed repUniform okTransform
    okTransform [] [] emptyFig emptyFig hU rfl rfl⟩

/-- Claim C10: every body of the supported catalog has an entry in the
telescope recommendation table, so the magnitude/recommendation lookups done
while labeling the sky map and while writing the PDF report succeed for every
catalog body: the uncaught-KeyError paths are unreachable for them. -/
theorem catalog_lookups_total (b : String) (hb : b ∈ bodies)
    (tr : String → Except String HorizontalFix) (fix : HorizontalFix)
    (htr : tr b = Except.ok fix) :
    ∃ r, pdf_lookup b = Except.ok r ∧
      sky_point tr b = Except.ok
        { az := fix.azimuth_deg
          alt := fix.altitude_deg
          label := body_label b
          magnitude := r.magnitude } := by
  have hsome : (List.lookup (pyLower b) telescope_recommendations).isSome = true := by
    simp only [bodies] at hb
    fin_cases hb <;> decide
  obtain ⟨r, hr⟩ := Option.isSome_iff_exists.mp hsome
  refine ⟨r, ?_, ?_⟩
  · unfold pdf_lookup
    rw [hr]
  · unfold sky_point
    rw [htr, hr]

/-- Claim C10 witness: the catalog body vega resolves through both the PDF
lookup and the sky-map point construction without a missing key. -/
theorem catalog_lookups_total_witness :
    ("vega" ∈ bodies) ∧
    okTransform "vega" = Except.ok { altitude_deg := 45, azimuth_deg := 120 } ∧
    ∃ r, pdf_lookup "vega" = Except.ok r ∧
      sky_point okTransform "vega" = Except.ok
        { az := 120, alt := 45, label := body_label "vega", magnitude := r.magnitude } :=
  ⟨by decide, rfl,
   catalog_lookups_total "vega" (by decide) okTransform
     { altitude_deg := 45, azimuth_deg := 120 } rfl⟩

end Astop
